import Mathlib

/-!
Verification of `climpred/relative_entropy.py` against its specification.

Numeric code is modelled over `ℝ`: numpy scalars become real numbers, numpy
square arrays become `Matrix (Fin n) (Fin n) ℝ`, and 1-d arrays become
`Fin n → ℝ`.  Where a line of the Python module cannot execute at all
(an undefined name, a malformed statement), the corresponding definition
returns `Except.error` carrying the error Python reports.
-/

namespace Climpred

open Matrix

noncomputable section

/-- Elementwise quotient of two square arrays.  Embeds the expression
`sigma_x / sigma_b` on line 38 of `relative_entropy.py`: on numpy arrays
(and `xr.DataArray`s) the `/` operator divides entry by entry, it is not a
matrix solve or an inverse. -/
def elemDiv {n : ℕ} (A B : Matrix (Fin n) (Fin n) ℝ) : Matrix (Fin n) (Fin n) ℝ :=
  fun i j => A i j / B i j

/-- Embeds lines 36-38: `fac * (np.log(np.linalg.det(sigma_b) /
np.linalg.det(sigma_x)) + np.trace(sigma_x / sigma_b) - neofs)`.
`Real.log` extends numpy's `np.log` by `Real.log 0 = 0` where numpy produces
the float `-inf`; in both cases evaluation is total and raises nothing. -/
def dispersion {n : ℕ} (sigma_b sigma_x : Matrix (Fin n) (Fin n) ℝ) (neofs : ℕ) : ℝ :=
  0.5 * (Real.log (sigma_b.det / sigma_x.det) + (elemDiv sigma_x sigma_b).trace - neofs)

/-- The dispersion the specification prescribes, stated from the spec's words
for comparison with `dispersion`: the trace term is the trace of the matrix
product of `sigma_x` with the matrix inverse of `sigma_b`. -/
def dispersion_spec {n : ℕ} (sigma_b sigma_x : Matrix (Fin n) (Fin n) ℝ) (neofs : ℕ) : ℝ :=
  0.5 * (Real.log (sigma_b.det / sigma_x.det) + (sigma_x * sigma_b⁻¹).trace - neofs)

/-- Embeds `np.linalg.lstsq(A, b)` (line 42) for a square coefficient matrix.
For invertible `A` the least-squares solution of `A z = b` is the unique exact
solution `A⁻¹ b`, which is what this definition returns; for `b = 0` it returns
the zero vector, numpy's minimum-norm solution.  (`Matrix.inv` is `0` on other
singular matrices, where numpy would return the pseudoinverse solution; no
claim is settled in that regime.)  numpy's `lstsq` never raises on rank
deficiency, it reports the rank as a fourth return value, which line 42
discards. -/
def lstsq {n : ℕ} (A : Matrix (Fin n) (Fin n) ℝ) (b : Fin n → ℝ) : Fin n → ℝ :=
  A⁻¹ *ᵥ b

/-- Embeds lines 42-44: `x = np.linalg.lstsq(sigma_b, mu_x - mu_b)` followed by
`signal = fac * np.matmul((mu_x - mu_b), x)`. -/
def signal {n : ℕ} (sigma_b : Matrix (Fin n) (Fin n) ℝ) (mu_x mu_b : Fin n → ℝ) : ℝ :=
  0.5 * ((mu_x - mu_b) ⬝ᵥ lstsq sigma_b (mu_x - mu_b))

/-- Embeds `_relative_entropy_formula` (lines 12-46): returns the triple
`(R, dispersion, signal)` with `R = dispersion + signal` (line 45). -/
def relative_entropy_formula {n : ℕ} (sigma_b sigma_x : Matrix (Fin n) (Fin n) ℝ)
    (mu_x mu_b : Fin n → ℝ) (neofs : ℕ) : ℝ × ℝ × ℝ :=
  (dispersion sigma_b sigma_x neofs + signal sigma_b mu_x mu_b,
    dispersion sigma_b sigma_x neofs,
    signal sigma_b mu_x mu_b)

end

/-- Embeds line 195 of `bootstrap_relative_entropy`: the loop runs
`range(min(1, int(bootstrap / initialized.time.size)))` times.  Python's
`int(a / b)` on non-negative integers is floor division. -/
def bootstrap_rounds (bootstrap time_size : ℕ) : ℕ :=
  min 1 (bootstrap / time_size)

/-- The round count the specification prescribes, stated from the spec's words
for comparison with `bootstrap_rounds`: `max(1, floor(bootstrap / time.size))`. -/
def bootstrap_rounds_spec (bootstrap time_size : ℕ) : ℕ :=
  max 1 (bootstrap / time_size)

/-- Embeds line 121 of `compute_relative_entropy`: the result table's row index
`tt = np.arange(1, length)` where `length = initialized.time.size`. -/
def rel_ent_index (length : ℕ) : List ℕ :=
  (List.range (length - 1)).map (fun i => i + 1)

/-- Embeds lines 118-120: the column index
`pd.MultiIndex.from_product([['R', 'S', 'D'], initializations])`, the cartesian
product with the component varying slowest. -/
def rel_ent_columns (inits : List ℤ) : List (String × ℤ) :=
  ((["R", "S", "D"]).map (fun c => inits.map (fun i => (c, i)))).flatten

/-- Embeds the table-filling statements on lines 156-158:
`rel_ent.T.loc['R', ens][t] = r` and its two siblings.  The loop variable
introduced on line 133 is `init`; the name `ens` is bound nowhere in the
function, so the first pass through the loop body raises `NameError` and no
cell is ever written.  Modelled as the error Python reports. -/
def rel_ent_fill_cell : Except String Unit :=
  Except.error "NameError: name ens is not defined"

/-- Embeds the anomaly branch of `compute_relative_entropy` (lines 108-114).
The `anomaly_data = true` branch (lines 112-114) returns both inputs
unchanged.  The `anomaly_data = false` branch opens with
`if detrend_by_control_time_mean:` (line 109), a name defined nowhere in the
module, and the guard is followed by no indented block, so the branch can
never produce the anomaly fields on lines 110-111; modelled as the error the
dangling name would report. -/
def anomalize {α : Type} (anomaly_data : Bool) (raw_x raw_b : α) : Except String (α × α) :=
  if anomaly_data then Except.ok (raw_x, raw_b)
  else Except.error "NameError: name detrend_by_control_time_mean is not defined"

/-- Embeds `_gen_control_distribution` (lines 49-74).  Line 72 of the source is
`control_uninitialized['member'] =` with its right-hand side on the following
line and no line continuation: a Python `SyntaxError`, so the module cannot be
loaded and the function can never run, for any argument.  Modelled as the
error Python reports at load time. -/
def gen_control_distribution {α : Type} (ds ctrl : α) (it : ℕ) : Except String α :=
  Except.error "SyntaxError: invalid syntax (line 72)"

/-- The keyword arguments `compute_relative_entropy` accepts (lines 77-79),
with the defaults its signature declares: `anomaly_data=False`, `neofs=None`,
`curv=True`, `ntime=None`. -/
structure EngineArgs where
  anomaly_data : Bool := false
  neofs : Option ℕ := none
  curv : Bool := true
  ntime : Option ℕ := none

/-- Embeds the call on lines 199-201 of `bootstrap_relative_entropy`:
`compute_relative_entropy(ds_control, control_uninitialized, neofs=neofs,
curv=curv, ntime=ntime)` passes only `neofs`, `curv` and `ntime`;
`anomaly_data` is omitted and resolves to the engine's declared default. -/
def bootstrap_engine_call (neofs : Option ℕ) (curv : Bool) (ntime : Option ℕ) : EngineArgs :=
  { neofs := neofs, curv := curv, ntime := ntime }

/-- Diagonal entries of a positive-definite real matrix are positive. -/
theorem posDef_diag_pos {n : ℕ} {σ : Matrix (Fin n) (Fin n) ℝ} (hσ : σ.PosDef) (i : Fin n) :
    0 < σ i i := by
  have hx : (Pi.single i 1 : Fin n → ℝ) ≠ 0 := by
    intro h
    have h1 := congrFun h i
    simp at h1
  have h := hσ.2 (Pi.single i 1) hx
  simpa [Matrix.mulVec_single, Matrix.single_dotProduct] using h

/-- The elementwise quotient of a matrix by itself has trace `n` whenever the
diagonal entries are nonzero: each diagonal entry of the quotient is `1`. -/
theorem trace_elemDiv_self {n : ℕ} {σ : Matrix (Fin n) (Fin n) ℝ} (h : ∀ i, σ i i ≠ 0) :
    (elemDiv σ σ).trace = n := by
  unfold Matrix.trace Matrix.diag elemDiv
  rw [Finset.sum_congr rfl fun i _ => div_self (h i)]
  simp

/-- C3: calling the formula with `sigma_b = sigma_x = sigma` and
`mu_b = mu_x = mu`, for positive-definite `sigma`, returns exactly
`(R, dispersion, signal) = (0, 0, 0)`: the log-determinant ratio is
`log 1 = 0`, the diagonal of the elementwise quotient is all ones so the trace
term cancels `neofs`, and the least-squares solve of a zero right-hand side is
the zero vector. -/
theorem relative_entropy_formula_self {n : ℕ} (σ : Matrix (Fin n) (Fin n) ℝ)
    (μ : Fin n → ℝ) (hσ : σ.PosDef) :
    relative_entropy_formula σ σ μ μ n = (0, 0, 0) := by
  have hdet : σ.det ≠ 0 := hσ.det_pos.ne'
  have hdiag : ∀ i, σ i i ≠ 0 := fun i => (posDef_diag_pos hσ i).ne'
  have hd : dispersion σ σ n = 0 := by
    unfold dispersion
    rw [div_self hdet, Real.log_one, trace_elemDiv_self hdiag]
    ring
  have hs : signal σ μ μ = 0 := by
    unfold signal
    simp
  unfold relative_entropy_formula
  rw [hd, hs, add_zero]

/-- Witness for C3 at the concrete positive-definite input `σ = 1`,
`μ = (3, 4)`, `n = 2`. -/
theorem relative_entropy_formula_self_witness :
    relative_entropy_formula (1 : Matrix (Fin 2) (Fin 2) ℝ) 1 ![3, 4] ![3, 4] 2 = (0, 0, 0) :=
  relative_entropy_formula_self 1 ![3, 4] Matrix.PosDef.one

/-- C2: for positive-definite `sigma_b` the signal the code computes equals
`0.5 * (mu_x - mu_b)ᵗ z` for the solution `z` of the linear system
`sigma_b z = mu_x - mu_b` (stated for an arbitrary solution `w`, which is
unique when `sigma_b` is invertible, so the least-squares solve is the exact
solve and equals the quadratic form with `sigma_b⁻¹`), and the returned `R` is
the sum of the returned dispersion and signal components. -/
theorem signal_solves_and_R_decomposes {n : ℕ} (sigma_b sigma_x : Matrix (Fin n) (Fin n) ℝ)
    (mu_x mu_b : Fin n → ℝ) (neofs : ℕ) (hb : sigma_b.PosDef) (w : Fin n → ℝ)
    (hw : sigma_b *ᵥ w = mu_x - mu_b) :
    signal sigma_b mu_x mu_b = 0.5 * ((mu_x - mu_b) ⬝ᵥ w) ∧
      (relative_entropy_formula sigma_b sigma_x mu_x mu_b neofs).1 =
        (relative_entropy_formula sigma_b sigma_x mu_x mu_b neofs).2.1 +
          (relative_entropy_formula sigma_b sigma_x mu_x mu_b neofs).2.2 := by
  refine ⟨?_, rfl⟩
  have hu : IsUnit sigma_b.det := hb.det_pos.ne'.isUnit
  have hlst : lstsq sigma_b (mu_x - mu_b) = w := by
    unfold lstsq
    rw [← hw, Matrix.mulVec_mulVec, Matrix.nonsing_inv_mul _ hu, Matrix.one_mulVec]
  unfold signal
  rw [hlst]

/-- Witness for C2 at the concrete input `sigma_b = sigma_x = 1`,
`mu_x = (1, 0)`, `mu_b = 0`, with solution vector `w = (1, 0)`. -/
theorem signal_solves_and_R_decomposes_witness :
    signal (1 : Matrix (Fin 2) (Fin 2) ℝ) ![1, 0] 0 =
        0.5 * ((![1, 0] - (0 : Fin 2 → ℝ)) ⬝ᵥ ![1, 0]) ∧
      (relative_entropy_formula (1 : Matrix (Fin 2) (Fin 2) ℝ) 1 ![1, 0] 0 2).1 =
        (relative_entropy_formula (1 : Matrix (Fin 2) (Fin 2) ℝ) 1 ![1, 0] 0 2).2.1 +
          (relative_entropy_formula (1 : Matrix (Fin 2) (Fin 2) ℝ) 1 ![1, 0] 0 2).2.2 :=
  signal_solves_and_R_decomposes 1 1 ![1, 0] 0 2 Matrix.PosDef.one ![1, 0]
    (by rw [Matrix.one_mulVec, sub_zero])

/-- C6 (amended): the formula never detects rank deficiency.  For a singular
`sigma_b` (its determinant is not a unit, so the least-squares solve reports a
deficient rank, which line 42 discards) and coinciding means, a numeric triple
is returned: the signal is `0` (the least-squares solution of a zero
right-hand side is the zero vector) and `R` equals the dispersion value. -/
theorem formula_numeric_on_singular {n : ℕ} (sigma_b sigma_x : Matrix (Fin n) (Fin n) ℝ)
    (mu : Fin n → ℝ) (neofs : ℕ) (hdet : sigma_b.det = 0) :
    ¬ IsUnit sigma_b.det ∧
      relative_entropy_formula sigma_b sigma_x mu mu neofs =
        (dispersion sigma_b sigma_x neofs, dispersion sigma_b sigma_x neofs, 0) := by
  have hs : signal sigma_b mu mu = 0 := by
    unfold signal
    simp
  refine ⟨by rw [hdet]; exact not_isUnit_zero, ?_⟩
  unfold relative_entropy_formula
  rw [hs, add_zero]

/-- Witness for C6's amended theorem at the concrete singular matrix
`sigma_b = [[1, 1], [1, 1]]`. -/
theorem formula_numeric_on_singular_witness :
    ¬ IsUnit (Matrix.det (!![(1 : ℝ), 1; 1, 1])) ∧
      relative_entropy_formula (!![(1 : ℝ), 1; 1, 1]) 1 ![0, 0] ![0, 0] 2 =
        (dispersion (!![(1 : ℝ), 1; 1, 1]) 1 2, dispersion (!![(1 : ℝ), 1; 1, 1]) 1 2, 0) :=
  formula_numeric_on_singular (!![(1 : ℝ), 1; 1, 1]) 1 ![0, 0] 2
    (by rw [Matrix.det_fin_two_of]; norm_num)

/-- C6 counterexample to the claim as stated: `sigma_b = [[2, 2], [2, 2]]` is
singular (zero determinant), yet the formula is a total function and returns a
numeric result there — its signal component is the number `0`, exactly what
numpy computes from the minimum-norm least-squares solution of the zero
right-hand side; no `SingularCovarianceError` (or any failure) exists in the
code. -/
theorem singular_sigma_returns_value :
    Matrix.det (!![(2 : ℝ), 2; 2, 2]) = 0 ∧
      (relative_entropy_formula (!![(2 : ℝ), 2; 2, 2]) 1 ![0, 0] ![0, 0] 2).2.2 = 0 := by
  constructor
  · rw [Matrix.det_fin_two_of]; norm_num
  · show signal _ _ _ = 0
    unfold signal
    simp

/-- C1: the dispersion the code computes differs from the spec's formula.  At
the symmetric positive-definite input `sigma_b = [[1, 1/2], [1/2, 1]]`,
`sigma_x = 1`, the code's elementwise trace term `np.trace(sigma_x / sigma_b)`
is `2` while the spec's `trace(sigma_x · sigma_b⁻¹)` is `8/3`, so the two
dispersion values differ by `1/3`. -/
theorem dispersion_code_ne_spec :
    dispersion (!![(1 : ℝ), 1 / 2; 1 / 2, 1]) 1 2 ≠
      dispersion_spec (!![(1 : ℝ), 1 / 2; 1 / 2, 1]) 1 2 := by
  have htr : (elemDiv (1 : Matrix (Fin 2) (Fin 2) ℝ) (!![(1 : ℝ), 1 / 2; 1 / 2, 1])).trace = 2 := by
    rw [Matrix.trace_fin_two]
    unfold elemDiv
    norm_num [Matrix.one_apply]
  have hinv : ((1 : Matrix (Fin 2) (Fin 2) ℝ) * (!![(1 : ℝ), 1 / 2; 1 / 2, 1])⁻¹).trace = 8 / 3 := by
    rw [one_mul, Matrix.inv_def, Matrix.adjugate_fin_two_of, Matrix.det_fin_two_of,
      Matrix.trace_smul, Matrix.trace_fin_two_of, Ring.inverse_eq_inv]
    norm_num
  unfold dispersion dispersion_spec
  rw [htr, hinv]
  intro h
  norm_num at h
  linarith

/-- C4: at the symmetric positive-definite input
`sigma_b = [[1, 9/10], [9/10, 1]]`, `sigma_x = 1`, equal means, the code's
dispersion component is `0.5 * log(19/100) < 0` and hence the returned `R` is
negative too: non-negativity fails. -/
theorem dispersion_negative_at_posdef :
    (relative_entropy_formula (!![(1 : ℝ), 9 / 10; 9 / 10, 1]) 1 ![0, 0] ![0, 0] 2).2.1 < 0 ∧
      (relative_entropy_formula (!![(1 : ℝ), 9 / 10; 9 / 10, 1]) 1 ![0, 0] ![0, 0] 2).1 < 0 := by
  have htr : (elemDiv (1 : Matrix (Fin 2) (Fin 2) ℝ) (!![(1 : ℝ), 9 / 10; 9 / 10, 1])).trace = 2 := by
    rw [Matrix.trace_fin_two]
    unfold elemDiv
    norm_num [Matrix.one_apply]
  have hd : dispersion (!![(1 : ℝ), 9 / 10; 9 / 10, 1]) 1 2 = 0.5 * Real.log (19 / 100) := by
    unfold dispersion
    rw [htr, Matrix.det_fin_two_of, Matrix.det_one]
    norm_num
  have hs : signal (!![(1 : ℝ), 9 / 10; 9 / 10, 1]) ![0, 0] ![0, 0] = 0 := by
    unfold signal
    simp
  have hlog : Real.log ((19 : ℝ) / 100) < 0 := Real.log_neg (by norm_num) (by norm_num)
  constructor
  · show dispersion _ _ _ < 0
    rw [hd]; linarith
  · show dispersion _ _ _ + signal _ _ _ < 0
    rw [hd, hs]; linarith

/-- C5: the bootstrap loop's round count is `min(1, floor(bootstrap /
time.size))`, not `max(1, ...)`: with `bootstrap = 100` and `time.size = 10`
the code runs one round where the spec prescribes ten, and with
`bootstrap = 3` and `time.size = 10` it runs zero rounds where the spec
guarantees at least one. -/
theorem bootstrap_rounds_min_not_max :
    bootstrap_rounds 100 10 = 1 ∧ bootstrap_rounds_spec 100 10 = 10 ∧
      bootstrap_rounds 3 10 = 0 ∧ bootstrap_rounds_spec 3 10 = 1 ∧
      bootstrap_rounds 100 10 ≠ bootstrap_rounds_spec 100 10 := by
  decide

/-- C7: with `anomaly_data = false` the engine never produces the anomaly
fields — the branch trips over the undefined name
`detrend_by_control_time_mean` — while the `anomaly_data = true` branch
passes both inputs through unchanged. -/
theorem anomalize_false_branch_fails :
    anomalize false (5 : ℤ) 7 =
        Except.error "NameError: name detrend_by_control_time_mean is not defined" ∧
      anomalize true (5 : ℤ) 7 = Except.ok (5, 7) :=
  ⟨rfl, rfl⟩

/-- C8: the pre-sized table skeleton is as the claim states — rows
`1 .. time.size - 1`, columns the product `{R, S, D} × initializations` with
the component varying slowest — but writing any cell fails on the unbound
name `ens`, so no lead time is ever filled. -/
theorem rel_ent_table_shape_fill_fails :
    rel_ent_index 5 = [1, 2, 3, 4] ∧
      rel_ent_columns [10, 20] =
        [("R", 10), ("R", 20), ("S", 10), ("S", 20), ("D", 10), ("D", 20)] ∧
      rel_ent_fill_cell = Except.error "NameError: name ens is not defined" :=
  ⟨rfl, rfl, rfl⟩

/-- C9: `_gen_control_distribution` can never run — line 72 of the module is a
syntax error, so loading the module fails before any call; in particular the
member axis is never concatenated or re-indexed. -/
theorem gen_control_distribution_unloadable :
    gen_control_distribution (0 : ℤ) 0 10 = Except.error "SyntaxError: invalid syntax (line 72)" :=
  rfl

/-- C10: the bootstrap's inner engine call leaves `anomaly_data` at its
declared default `false`, and that value selects the engine branch that fails
on the undefined name `detrend_by_control_time_mean`, so the claimed
re-anomalization never takes place. -/
theorem bootstrap_engine_call_leaves_default :
    (bootstrap_engine_call (some 5) true (some 3)).anomaly_data = false ∧
      anomalize (bootstrap_engine_call (some 5) true (some 3)).anomaly_data (0 : ℤ) 0 =
        Except.error "NameError: name detrend_by_control_time_mean is not defined" :=
  ⟨rfl, rfl⟩

end Climpred
